import Mathlib

/-!
Shallow embedding of the `ha-hikvision-ezviz` custom component
(`custom_components/hikvision_enviz/`): the device session adapter
(`hikvision_api.py`), the camera stream buffer (`camera.py`) and the config
flow user step (`config_flow.py`).

Python object state becomes an explicit `Session` record; results of native
SDK calls (which are opaque foreign functions) are supplied by an `SdkEnv`
oracle; each method returns an `Outcome` carrying its Python return value,
the updated session, the trace of native calls it issued, the vendor error
codes it wrote to the log, and the exception it let propagate (always `none`
here, because every public method wraps its body in a catch-all
`try/except` that logs and returns a falsy value).
-/

namespace HikvisionEnviz

/-- A byte buffer (Python `bytes`), one `Nat` per byte. -/
abbrev Bytes := List Nat

/-- The mutable fields of `HikvisionEnvizAPI` set in `__init__`
(hikvision_api.py lines 41-55).  `stream_callback_set` models whether
`self._stream_callback` is not `None`; `callback_registered` models whether
`self._callback` is not `None`; `stream_data` is the FIFO queue
`self._stream_data` (front = next element `get` returns). -/
structure Session where
  host : String
  port : Nat
  username : String
  password : String
  user_id : Int
  real_play_handle : Int
  connected : Bool
  play_ctrl_port : Int
  stream_callback_set : Bool
  current_frame : Option Bytes
  play_handle : Int
  stream_data : List Bytes
  running : Bool
  callback_registered : Bool
  deriving Repr, DecidableEq

/-- `HikvisionEnvizAPI.__init__(host, port, username, password)`. -/
def initSession (host : String) (port : Nat) (username password : String) : Session :=
  { host := host
    port := port
    username := username
    password := password
    user_id := -1
    real_play_handle := -1
    connected := false
    play_ctrl_port := -1
    stream_callback_set := false
    current_frame := none
    play_handle := -1
    stream_data := []
    running := false
    callback_registered := false }

/-- One invocation of a native SDK entry point, with the arguments that
matter for resource accounting (handles, credentials). -/
inductive NativeCall
  | setSDKInitCfg
  | setConnectTime
  | setReconnect
  | init
  | setLogToFile
  | loginV40 (host : String) (port : Nat) (username password : String)
  | loginV30 (host : String) (port : Nat) (username password : String)
  | logout (uid : Int)
  | cleanup
  | realPlayV40 (uid : Int)
  | stopRealPlay (handle : Int)
  | ptzControl (uid : Int) (command : Nat)
  | getLastError
  | socketConnect (host : String) (port : Nat)
  | playM4Stop (port : Int)
  | playM4CloseStream (port : Int)
  | playM4FreePort (port : Int)
  deriving Repr, DecidableEq

/-- Oracle for the results the closed native SDK returns during one method
call: whether `NET_DVR_Init` succeeds, the handles `NET_DVR_Login_V40`,
`NET_DVR_Login_V30` and `NET_DVR_RealPlay_V40` return, the code
`NET_DVR_GetLastError` reports, whether the TCP reachability probe in
`check_device_accessible` succeeds, and whether `load_library` in
`__init__` succeeded (used by the config flow, whose `try` block includes
constructing the API object). -/
structure SdkEnv where
  init_ok : Bool
  login_v40_result : Int
  login_v30_result : Int
  realplay_result : Int
  last_error : Int
  accessible : Bool
  sdk_load_ok : Bool
  deriving Repr, DecidableEq

/-- The real SDK signals failure from `NET_DVR_Login_V40` and
`NET_DVR_RealPlay_V40` by returning exactly `-1` (any other return value is
a valid handle); the Python code only tests `< 0`. -/
def SdkEnv.WF (env : SdkEnv) : Prop :=
  (env.login_v40_result < 0 → env.login_v40_result = -1) ∧
  (env.realplay_result < 0 → env.realplay_result = -1)

/-- Result of running one Python method: its return value, the session
afterwards, the native calls issued in order, the vendor error codes logged,
and the exception propagated to the caller (`none` when the method returned
normally). -/
structure Outcome (α : Type) where
  result : α
  session : Session
  calls : List NativeCall
  logged : List Int
  raised : Option String
  deriving Repr

/-- Native calls issued by `_set_sdk_init_cfg` (lines 176-235): three
`NET_DVR_SetSDKInitCfg` calls (SDK path, crypto library, SSL library) then
`NET_DVR_SetConnectTime` and `NET_DVR_SetReconnect`.  Touches no session
field. -/
def cfgCalls : List NativeCall :=
  [.setSDKInitCfg, .setSDKInitCfg, .setSDKInitCfg, .setConnectTime, .setReconnect]

/-- The drain loop of `test_stream` (lines 553-564): pop frames from the
queue until 100 truthy (nonempty) frames have been handled or the queue is
empty (`queue.Empty` breaks the loop); empty frames are popped but not
counted (`if frame:`).  Returns the queue contents left behind. -/
def drainFrames : List Bytes → Nat → List Bytes
  | [], _ => []
  | f :: q, need =>
    match need with
    | 0 => f :: q
    | n + 1 => if f.isEmpty then drainFrames q (n + 1) else drainFrames q n

/-- `HikvisionEnvizAPI.test_stream` (lines 524-575): registers
`self._callback`, starts a preview with `NET_DVR_RealPlay_V40`, returns
`False` if the handle is negative; otherwise drains up to 100 frames from
`self._stream_data`, stops the preview and resets `self._play_handle` to
`-1`. -/
def test_stream (env : SdkEnv) (s : Session) : Outcome Bool :=
  if env.realplay_result < 0 then
    { result := false
      session := { s with callback_registered := true, play_handle := env.realplay_result }
      calls := [.realPlayV40 s.user_id, .getLastError]
      logged := [env.last_error]
      raised := none }
  else
    { result := true
      session := { s with callback_registered := true
                          play_handle := -1
                          stream_data := drainFrames s.stream_data 100 }
      calls := [.realPlayV40 s.user_id, .stopRealPlay env.realplay_result]
      logged := []
      raised := none }

/-- `HikvisionEnvizAPI.connect` (lines 237-289): early `True` when already
connected; `_set_sdk_init_cfg`; `False` on `NET_DVR_Init` failure (error
code logged); `GeneralSetting` (`NET_DVR_SetLogToFile`); stores the
`NET_DVR_Login_V40` handle into `self._user_id` and returns `False` when it
is negative (error code logged); otherwise sets `self._connected = True`,
runs `test_stream` and returns its verdict.  Every failure path is a
`return False`; the catch-all `except` also returns `False`, so no
exception propagates. -/
def connect (env : SdkEnv) (s : Session) : Outcome Bool :=
  if s.connected then
    { result := true, session := s, calls := [], logged := [], raised := none }
  else if env.init_ok = false then
    { result := false
      session := s
      calls := cfgCalls ++ [.init, .getLastError]
      logged := [env.last_error]
      raised := none }
  else
    if env.login_v40_result < 0 then
      { result := false
        session := { s with user_id := env.login_v40_result }
        calls := cfgCalls ++
          [.init, .setLogToFile, .loginV40 s.host s.port s.username s.password, .getLastError]
        logged := [env.last_error]
        raised := none }
    else
      { result :=
          (test_stream env { s with user_id := env.login_v40_result, connected := true }).result
        session :=
          (test_stream env { s with user_id := env.login_v40_result, connected := true }).session
        calls := cfgCalls ++
          [.init, .setLogToFile, .loginV40 s.host s.port s.username s.password] ++
          (test_stream env { s with user_id := env.login_v40_result, connected := true }).calls
        logged :=
          (test_stream env { s with user_id := env.login_v40_result, connected := true }).logged
        raised := none }

/-- `HikvisionEnvizAPI.disconnect` (lines 291-301): when connected, stops
any live preview (`self._real_play_handle >= 0`), logs out, cleans up, and
resets `self._connected` and `self._user_id`; otherwise a no-op. -/
def disconnect (s : Session) : Outcome Unit :=
  if s.connected then
    if 0 ≤ s.real_play_handle then
      { result := ()
        session := { s with real_play_handle := -1, connected := false, user_id := -1 }
        calls := [.stopRealPlay s.real_play_handle, .logout s.user_id, .cleanup]
        logged := []
        raised := none }
    else
      { result := ()
        session := { s with connected := false, user_id := -1 }
        calls := [.logout s.user_id, .cleanup]
        logged := []
        raised := none }
  else
    { result := (), session := s, calls := [], logged := [], raised := none }

/-- `HikvisionEnvizAPI.test_connection` (lines 399-448): SDK init
(failure logged, `False`), then `check_device_accessible` (a raw TCP
connect, `False` when unreachable), then `GeneralSetting`, then
`NET_DVR_Login_V30` into the LOCAL variable `user_id` (never `self._user_id`);
on failure logs the code and returns `False`; on success logs out that local
handle, cleans up, and returns `True`.  No session field is ever assigned. -/
def test_connection (env : SdkEnv) (s : Session) : Outcome Bool :=
  if env.init_ok = false then
    { result := false
      session := s
      calls := cfgCalls ++ [.init, .getLastError]
      logged := [env.last_error]
      raised := none }
  else if env.accessible = false then
    { result := false
      session := s
      calls := cfgCalls ++ [.init, .socketConnect s.host s.port]
      logged := []
      raised := none }
  else if env.login_v30_result < 0 then
    { result := false
      session := s
      calls := cfgCalls ++ [.init, .socketConnect s.host s.port, .setLogToFile,
        .loginV30 s.host s.port s.username s.password, .getLastError]
      logged := [env.last_error]
      raised := none }
  else
    { result := true
      session := s
      calls := cfgCalls ++ [.init, .socketConnect s.host s.port, .setLogToFile,
        .loginV30 s.host s.port s.username s.password, .logout env.login_v30_result, .cleanup]
      logged := []
      raised := none }

/-- `HikvisionEnvizAPI.start_stream` (lines 119-150): when
`self._play_handle >= 0` it immediately returns the mjpeg handler without
touching any state or the SDK; otherwise it registers `self._callback`,
starts a preview, and either returns `None` after the
raise-log path (negative handle, error code logged) or sets
`self._running = True` and returns the handler.  `result = true` models
"returned `self._handle_mjpeg_stream`", `result = false` models
"returned `None`". -/
def start_stream (env : SdkEnv) (s : Session) : Outcome Bool :=
  if 0 ≤ s.play_handle then
    { result := true, session := s, calls := [], logged := [], raised := none }
  else
    if env.realplay_result < 0 then
      { result := false
        session := { s with callback_registered := true, play_handle := env.realplay_result }
        calls := [.realPlayV40 s.user_id, .getLastError]
        logged := [env.last_error]
        raised := none }
    else
      { result := true
        session := { s with callback_registered := true
                            play_handle := env.realplay_result
                            running := true }
        calls := [.realPlayV40 s.user_id]
        logged := []
        raised := none }

/-- `HikvisionEnvizAPI.stop_stream` (lines 152-170): stops the real-play
preview only when `self._real_play_handle >= 0`, releases the decode port
only when `self._play_ctrl_port.value > -1`, then always clears
`self._stream_callback` and `self._current_frame`. -/
def stop_stream (s : Session) : Outcome Unit :=
  if 0 ≤ s.real_play_handle then
    if -1 < s.play_ctrl_port then
      { result := ()
        session := { s with real_play_handle := -1, play_ctrl_port := -1,
                            stream_callback_set := false, current_frame := none }
        calls := [.stopRealPlay s.real_play_handle, .playM4Stop s.play_ctrl_port,
                  .playM4CloseStream s.play_ctrl_port, .playM4FreePort s.play_ctrl_port]
        logged := []
        raised := none }
    else
      { result := ()
        session := { s with real_play_handle := -1,
                            stream_callback_set := false, current_frame := none }
        calls := [.stopRealPlay s.real_play_handle]
        logged := []
        raised := none }
  else
    if -1 < s.play_ctrl_port then
      { result := ()
        session := { s with play_ctrl_port := -1,
                            stream_callback_set := false, current_frame := none }
        calls := [.playM4Stop s.play_ctrl_port, .playM4CloseStream s.play_ctrl_port,
                  .playM4FreePort s.play_ctrl_port]
        logged := []
        raised := none }
    else
      { result := ()
        session := { s with stream_callback_set := false, current_frame := none }
        calls := []
        logged := []
        raised := none }

/-- `HikvisionEnvizAPI.real_data_callback` (lines 450-467): the relay the
native layer invokes per buffer.  Type 1 (`NET_DVR_SYSHEAD`) and type 2
(`NET_DVR_STREAMDATA`) buffers are copied and appended to the
`self._stream_data` queue; any other type is ignored. -/
def real_data_callback (s : Session) (dwDataType : Nat) (buffer : Bytes) : Session :=
  if dwDataType = 1 then
    { s with stream_data := s.stream_data ++ [buffer] }
  else if dwDataType = 2 then
    { s with stream_data := s.stream_data ++ [buffer] }
  else s

/-- A simulated native layer: invoke the relay callback once per
(data-type, buffer) pair, in order. -/
def feedNative (s : Session) (bufs : List (Nat × Bytes)) : Session :=
  bufs.foldl (fun st b => real_data_callback st b.1 b.2) s

/-- `HikvisionEnvizAPI.pan_tilt` (lines 356-369): `False` and no SDK call
when not connected; otherwise `NET_DVR_PTZControl` with command
`21 if pan > 0 else 22`, then with command `23 if tilt > 0 else 24`, and
`True`.  Arguments are Python floats used only in `> 0` comparisons,
modelled as rationals. -/
def pan_tilt (s : Session) (pan tilt : ℚ) : Outcome Bool :=
  if s.connected = false then
    { result := false, session := s, calls := [], logged := [], raised := none }
  else
    { result := true
      session := s
      calls := [.ptzControl s.user_id (if 0 < pan then 21 else 22),
                .ptzControl s.user_id (if 0 < tilt then 23 else 24)]
      logged := []
      raised := none }

/-- Upper bound of the Python slice `buf[:i]` over a sequence of length
`len`: negative indices count from the end (clamped at 0), nonnegative ones
are clamped at `len`. -/
def pySliceUpper (len : Nat) (i : Int) : Nat :=
  if i < 0 then ((len : Int) + i).toNat else min i.toNat len

/-- `StreamBuffer.write` (camera.py lines 40-43): extends the internal
bytearray and returns `len(data)`. -/
def StreamBuffer.write (buf : Bytes) (data : Bytes) : Bytes × Nat :=
  (buf ++ data, data.length)

/-- `StreamBuffer.read` (camera.py lines 45-53): `size == -1` is replaced
by the buffer length; an empty buffer returns `b""`; otherwise returns
`buffer[:size]` and deletes that prefix.  Result is
(bytes returned, buffer afterwards). -/
def StreamBuffer.read (buf : Bytes) (size : Int) : Bytes × Bytes :=
  if buf = [] then ([], buf)
  else
    (buf.take (pySliceUpper buf.length (if size = -1 then (buf.length : Int) else size)),
     buf.drop (pySliceUpper buf.length (if size = -1 then (buf.length : Int) else size)))

/-- Result of `HikvisionEnvizConfigFlow.async_step_user` on a submitted
form: either an entry was created or the form is shown again with an
optional `errors["base"]` code. -/
inductive FlowResult
  | createEntry (title : String)
  | showForm (errors : Option String)
  deriving Repr, DecidableEq

/-- `HikvisionEnvizConfigFlow.async_step_user` (config_flow.py lines
28-66) with `user_input` present: the `try` block constructs
`HikvisionEnvizAPI` (raises `OSError` when the SDK libraries fail to load,
caught by the generic `except` which sets `errors["base"] = "unknown"`)
and runs `test_connection`; `True` creates the entry, `False` sets
`errors["base"] = "cannot_connect"`.  The unique-id bookkeeping on the
success path is host-platform glue and not modelled. -/
def async_step_user (env : SdkEnv) (host : String) (port : Nat)
    (username password : String) : FlowResult :=
  if env.sdk_load_ok = false then .showForm (some "unknown")
  else if (test_connection env (initSession host port username password)).result then
    .createEntry host
  else .showForm (some "cannot_connect")

/-! ### Concrete fixtures used by witnesses and counterexamples -/

/-- A fresh API object for a typical camera. -/
def camSession : Session := initSession "192.168.1.64" 8000 "admin" "pass1234"

/-- Native layer where every call succeeds (all handles 0). -/
def envAllOk : SdkEnv :=
  { init_ok := true
    login_v40_result := 0
    login_v30_result := 0
    realplay_result := 0
    last_error := 0
    accessible := true
    sdk_load_ok := true }

/-- Native layer where `NET_DVR_Init` fails with vendor code 3. -/
def envInitFail : SdkEnv := { envAllOk with init_ok := false, last_error := 3 }

/-- Native layer where both login calls fail with vendor code 7
(e.g. unreachable endpoint: the login times out and returns -1). -/
def envLoginFail : SdkEnv :=
  { envAllOk with login_v40_result := -1, login_v30_result := -1, last_error := 7 }

/-- Native layer where login succeeds but `NET_DVR_RealPlay_V40` fails
with vendor code 23. -/
def envStreamFail : SdkEnv := { envAllOk with realplay_result := -1, last_error := 23 }

/-- Native layer where the TCP reachability probe fails. -/
def envUnreachable : SdkEnv := { envAllOk with accessible := false }

/-! ### Helper lemmas -/

theorem test_connection_session_eq (env : SdkEnv) (s : Session) :
    (test_connection env s).session = s := by
  unfold test_connection
  split
  · rfl
  · split
    · rfl
    · split <;> rfl

theorem start_stream_rejects_when_open (env : SdkEnv) (s : Session)
    (h : 0 ≤ s.play_handle) :
    start_stream env s = { result := true, session := s, calls := [], logged := [],
                           raised := none } := by
  unfold start_stream
  rw [if_pos h]

theorem feed_payloads (ps : List Bytes) : ∀ s : Session,
    (feedNative s (ps.map fun p => (2, p))).stream_data = s.stream_data ++ ps := by
  induction ps with
  | nil => intro s; simp [feedNative]
  | cons p ps ih =>
    intro s
    simp only [List.map_cons, feedNative, List.foldl_cons] at ih ⊢
    rw [ih]
    simp [real_data_callback]

theorem take_min_length (n : Nat) (l : Bytes) : l.take (min n l.length) = l.take n := by
  rcases le_total n l.length with h | h
  · rw [min_eq_left h]
  · rw [min_eq_right h, List.take_length, List.take_of_length_le h]

theorem drop_min_length (n : Nat) (l : Bytes) : l.drop (min n l.length) = l.drop n := by
  rcases le_total n l.length with h | h
  · rw [min_eq_left h]
  · rw [min_eq_right h, List.drop_length, List.drop_eq_nil_of_le h]

/-! ### Claim theorems -/

/-- Claim C4: for every Session in the not-connected initial state,
`test_connection()` does not mutate any persisted Session field: afterwards
`_user_id` is still `-1`, and the connected flag, host, port, username and
password are unchanged, whether the test succeeds or fails. -/
theorem test_connection_no_mutation (env : SdkEnv) (host : String) (port : Nat)
    (username password : String) :
    (test_connection env (initSession host port username password)).session
        = initSession host port username password ∧
    (test_connection env (initSession host port username password)).session.user_id = -1 ∧
    (test_connection env (initSession host port username password)).session.connected
        = false := by
  refine ⟨test_connection_session_eq env _, ?_, ?_⟩ <;>
    rw [test_connection_session_eq env _] <;> rfl

/-- Claim C5: feeding the relay callback one system-header buffer (type 1)
followed by N payload buffers (type 2) appends exactly those N+1 buffers to
the stream-data queue in that order: starting from any session, the queue
afterwards is the old queue followed by the header and then the payloads
in native delivery order, so the header is enqueued exactly once and before
every payload. -/
theorem relay_preserves_header_then_payload_order (s : Session) (header : Bytes)
    (payloads : List Bytes) :
    (feedNative s ((1, header) :: payloads.map fun p => (2, p))).stream_data
      = s.stream_data ++ header :: payloads := by
  simp only [feedNative, List.foldl_cons]
  have h := feed_payloads payloads (real_data_callback s 1 header)
  simp only [feedNative] at h
  rw [h]
  simp [real_data_callback]

/-- Claim C6: a second `start_stream()` without an intervening `stop_stream()`
cannot leak the first handle: whenever the first call left an open preview
handle (`_play_handle >= 0`), the second call is rejected up front - it
issues no native call at all and leaves the session (in particular the
first handle) unchanged. -/
theorem second_start_stream_no_leak (s : Session) (env1 env2 : SdkEnv)
    (h : 0 ≤ ((start_stream env1 s).session).play_handle) :
    (start_stream env2 (start_stream env1 s).session).session
        = (start_stream env1 s).session ∧
    (start_stream env2 (start_stream env1 s).session).calls = [] := by
  rw [start_stream_rejects_when_open env2 _ h]
  exact ⟨rfl, rfl⟩

/-- Witness for C6 at a concrete input: a fresh session whose first
`start_stream` succeeds with handle 0. -/
theorem second_start_stream_no_leak_witness :
    (start_stream envAllOk (start_stream envAllOk camSession).session).session
        = (start_stream envAllOk camSession).session ∧
    (start_stream envAllOk (start_stream envAllOk camSession).session).calls = [] :=
  second_start_stream_no_leak camSession envAllOk envAllOk (by decide)

/-- Claim C7: `stop_stream()` before any `start_stream()` (real-play handle and
play-control port still `-1`, no stream callback or cached frame yet) is a
no-op: it returns normally with no exception, issues no native call, and
leaves the session unchanged. -/
theorem stop_stream_before_start_noop (s : Session)
    (h1 : s.real_play_handle = -1) (h2 : s.play_ctrl_port = -1)
    (h3 : s.stream_callback_set = false) (h4 : s.current_frame = none) :
    stop_stream s = { result := (), session := s, calls := [], logged := [],
                      raised := none } := by
  cases s
  unfold stop_stream
  simp_all

/-- Witness for C7 at the concrete fresh session. -/
theorem stop_stream_before_start_noop_witness :
    stop_stream camSession = { result := (), session := camSession, calls := [],
                               logged := [], raised := none } :=
  stop_stream_before_start_noop camSession rfl rfl rfl rfl

/-- Claim C8: in the config-flow user step, when the API object is constructed
normally (the SDK libraries load, so no unexpected exception) and the
configured host is unreachable, the step reports the `cannot_connect` error
code and not `unknown`. -/
theorem config_flow_unreachable_cannot_connect (env : SdkEnv) (host : String)
    (port : Nat) (username password : String)
    (hload : env.sdk_load_ok = true) (hacc : env.accessible = false) :
    async_step_user env host port username password
        = FlowResult.showForm (some "cannot_connect") ∧
    async_step_user env host port username password
        ≠ FlowResult.showForm (some "unknown") := by
  have hres : (test_connection env (initSession host port username password)).result
      = false := by
    unfold test_connection
    split_ifs <;> simp_all
  have hstep : async_step_user env host port username password
      = FlowResult.showForm (some "cannot_connect") := by
    unfold async_step_user
    rw [if_neg (by simp [hload]), if_neg (by simp [hres])]
  exact ⟨hstep, by rw [hstep]; simp⟩

/-- Witness for C8 at a concrete input: default admin credentials against
an unreachable host. -/
theorem config_flow_unreachable_cannot_connect_witness :
    async_step_user envUnreachable "192.168.1.64" 8000 "admin" "pass1234"
        = FlowResult.showForm (some "cannot_connect") ∧
    async_step_user envUnreachable "192.168.1.64" 8000 "admin" "pass1234"
        ≠ FlowResult.showForm (some "unknown") :=
  config_flow_unreachable_cannot_connect envUnreachable "192.168.1.64" 8000 "admin"
    "pass1234" rfl rfl

/-- Claim C9: `StreamBuffer` is a FIFO byte buffer: `write(data)` appends `data`
and returns `len(data)`; `read(n)` for a nonnegative `n` returns the first
`n` unread bytes (in write order) and removes exactly those bytes;
`read(-1)` returns the concatenation of all unread writes and empties the
buffer; and `read` on an empty buffer returns the empty byte string for any
requested size. -/
theorem stream_buffer_fifo (buf data : Bytes) (n : Nat) (z : Int) :
    (StreamBuffer.write buf data).2 = data.length ∧
    (StreamBuffer.write buf data).1 = buf ++ data ∧
    StreamBuffer.read buf (-1) = (buf, []) ∧
    StreamBuffer.read [] z = ([], []) ∧
    StreamBuffer.read buf (n : Int) = (buf.take n, buf.drop n) := by
  refine ⟨rfl, rfl, ?_, ?_, ?_⟩
  · unfold StreamBuffer.read
    by_cases h : buf = []
    · rw [if_pos h, h]
    · rw [if_neg h, if_pos rfl]
      have hup : pySliceUpper buf.length (buf.length : Int) = buf.length := by
        unfold pySliceUpper
        rw [if_neg (by omega)]
        simp
      rw [hup, List.take_length, List.drop_length]
  · unfold StreamBuffer.read
    rw [if_pos rfl]
  · unfold StreamBuffer.read
    by_cases h : buf = []
    · rw [if_pos h, h]
      simp
    · rw [if_neg h, if_neg (by omega)]
      have hup : pySliceUpper buf.length (n : Int) = min n buf.length := by
        unfold pySliceUpper
        rw [if_neg (by omega)]
        simp
      rw [hup, take_min_length, drop_min_length]

/-- Claim C10: for every connected session, `pan_tilt(pan, tilt)` returns `True`
and issues exactly two native PTZ commands whose codes depend only on the
signs: 21 when `pan > 0`, else 22 (including `pan == 0`); then 23 when
`tilt > 0`, else 24 (including `tilt == 0`).  When not connected it returns
`False` and issues no native call; the session is never modified. -/
theorem pan_tilt_two_commands (s : Session) (pan tilt : ℚ) :
    (pan_tilt s pan tilt).result = s.connected ∧
    (pan_tilt s pan tilt).session = s ∧
    (pan_tilt s pan tilt).calls =
      (if s.connected then
        [NativeCall.ptzControl s.user_id (if 0 < pan then 21 else 22),
         NativeCall.ptzControl s.user_id (if 0 < tilt then 23 else 24)]
       else []) := by
  cases hc : s.connected <;> simp [pan_tilt, hc]

/-- Claim C1 counterexample: from the fresh session, with a native layer where
login and the stream test both succeed, `connect()` then `disconnect()`
does NOT restore the session exactly: `test_stream` (which `connect` runs)
stores a callback into `self._callback` and `disconnect` never clears it,
so the registered-callback field changed from `None` to registered. -/
theorem connect_disconnect_roundtrip_cex :
    (disconnect (connect envAllOk camSession).session).session ≠ camSession ∧
    (disconnect (connect envAllOk camSession).session).session.callback_registered
        = true ∧
    camSession.callback_registered = false := by decide

/-- Claim C1 amended: assuming the SDK contract that failed native calls return
exactly `-1`, `connect()` followed immediately by `disconnect()` from the
not-connected initial state restores every Session field except the
registered real-data callback `self._callback`: login handle, connected
flag, both play handles, the decode port, the stream callback, the cached
frame and the queued stream data all return to their initial values. -/
theorem connect_disconnect_roundtrip_restores_all_but_callback
    (host : String) (port : Nat) (username password : String) (env : SdkEnv)
    (hWF : env.WF) :
    { (disconnect (connect env (initSession host port username password)).session).session
        with callback_registered := false }
      = initSession host port username password := by
  obtain ⟨h40, hrp⟩ := hWF
  by_cases hinit : env.init_ok = false
  · simp [connect, disconnect, initSession, hinit]
  · by_cases hlog : env.login_v40_result < 0
    · have h1 := h40 hlog
      simp [connect, disconnect, initSession, hinit, hlog, h1]
    · by_cases hplay : env.realplay_result < 0
      · have h2 := hrp hplay
        simp [connect, disconnect, test_stream, initSession, hinit, hlog, hplay, h2]
      · simp [connect, disconnect, test_stream, initSession, hinit, hlog, hplay,
          drainFrames]

/-- Witness for the amended C1 at the concrete fresh session with an
all-successful native layer. -/
theorem connect_disconnect_roundtrip_restores_witness :
    { (disconnect (connect envAllOk camSession).session).session
        with callback_registered := false } = camSession :=
  connect_disconnect_roundtrip_restores_all_but_callback "192.168.1.64" 8000 "admin"
    "pass1234" envAllOk
    ⟨fun h => absurd h (by decide), fun h => absurd h (by decide)⟩

/-- Claim C2 counterexample: when login succeeds but the stream test fails,
`connect()` reports failure (returns `False`) yet leaves the session with
`self._connected = True` and a nonnegative login handle, because line 274
sets the flag before the stream test and the failure path never resets
it. -/
theorem connect_failure_connected_cex :
    (connect envStreamFail camSession).result = false ∧
    (connect envStreamFail camSession).session.connected = true ∧
    0 ≤ (connect envStreamFail camSession).session.user_id := by decide

/-- Claim C2 amended: whenever `connect()` fails in the SDK-init or login phase,
the session is left disconnected (connected flag false, login handle
negative); but a failure of the post-login stream test leaves the session
marked connected with a nonnegative login handle (the counterexample). -/
theorem connect_early_failure_leaves_disconnected (env : SdkEnv) (s : Session)
    (hc : s.connected = false) (hu : s.user_id < 0)
    (h : env.init_ok = false ∨ env.login_v40_result < 0) :
    (connect env s).result = false ∧
    (connect env s).session.connected = false ∧
    (connect env s).session.user_id < 0 := by
  by_cases hinit : env.init_ok = false
  · simp [connect, hc, hinit, hu]
  · have hlog := h.resolve_left hinit
    simp [connect, hc, hinit, hlog, hu, not_lt_of_lt]

/-- Witness for the amended C2: a fresh session against a native layer
whose `NET_DVR_Init` fails. -/
theorem connect_early_failure_leaves_disconnected_witness :
    (connect envInitFail camSession).result = false ∧
    (connect envInitFail camSession).session.connected = false ∧
    (connect envInitFail camSession).session.user_id < 0 :=
  connect_early_failure_leaves_disconnected envInitFail camSession rfl (by decide)
    (Or.inl rfl)

/-- Claim C3 counterexample: with an unreachable endpoint (the native login times
out and returns `-1`), `connect()` does not raise `ConnectionError` - no
exception propagates (`raised = none`, every failure path is a
`return False` and the method body sits in a catch-all `try/except`): it
returns `False`. -/
theorem connect_no_exception_cex :
    (connect envLoginFail camSession).raised = none ∧
    (connect envLoginFail camSession).result = false := by decide

/-- Claim C3 amended: `connect()` fails by returning `False` - not by raising
`ConnectionError` - when SDK init fails or the native login call reports a
negative handle; the underlying vendor error code (`NET_DVR_GetLastError`)
is surfaced to the log only. -/
theorem connect_failure_returns_false_and_logs_code (env : SdkEnv) (s : Session)
    (hc : s.connected = false)
    (h : env.init_ok = false ∨ env.login_v40_result < 0) :
    (connect env s).raised = none ∧
    (connect env s).result = false ∧
    env.last_error ∈ (connect env s).logged := by
  by_cases hinit : env.init_ok = false
  · simp [connect, hc, hinit]
  · have hlog := h.resolve_left hinit
    simp [connect, hc, hinit, hlog]

/-- Witness for the amended C3: a fresh session against a native layer
whose login returns `-1` with vendor error code 7. -/
theorem connect_failure_returns_false_and_logs_code_witness :
    (connect envLoginFail camSession).raised = none ∧
    (connect envLoginFail camSession).result = false ∧
    envLoginFail.last_error ∈ (connect envLoginFail camSession).logged :=
  connect_failure_returns_false_and_logs_code envLoginFail camSession rfl
    (Or.inr (by decide))

end HikvisionEnviz
